import Mathlib

/-!
Verification of the signal-fusion pipeline of the transferPoC repository.

The definitions below are shallow embeddings of the Python source:
* `applyGuardrails`, `fallbackVotes`, `fallbackDecision` embed the
  post-processing and fallback logic of
  `RAGService._final_decision_node` (sc_fraud_detection/app/services/rag_service.py);
* `analyzeNeighbors` and `getDecision` embed `KNNService.analyze_neighbors`
  and `KNNService.get_decision` (app/services/knn_service.py);
* `circularFlowTag` embeds the circular-flow part of
  `AlchemyPatternAnalyzer._analyze_network_patterns`;
* `regularIntervalTag` embeds the regular-interval part of
  `AlchemyPatternAnalyzer._analyze_temporal_patterns`;
* `FEATURE_NAMES` and `features_to_vector` embed
  `FeatureExtractor` (app/utils/feature_extractor.py).

Python floats are modelled as rationals; all numeric literals of the source
are exactly representable.
-/

namespace TransferPoC

/-- The tri-state fraud decision carried in `final_decision`
("Fraud" / "Not_Fraud" / "Undecided" in the source). -/
inductive Decision where
  | Fraud
  | NotFraud
  | Undecided
deriving DecidableEq, Repr

open Decision

/-- Embedding of the guardrail post-processing of `_final_decision_node`
(rag_service.py lines 816-841).  The source mutates
`result["final_decision"]` through three successive `if` statements; the
`let` chain reproduces that sequencing exactly.  (The source's first rule
additionally tests `!= "Undecided"` before overwriting, which only affects
the reasoning string, not the decision.) -/
def applyGuardrails (d : Decision) (fraud_prob behavioral_risk knn_confidence : ℚ) :
    Decision :=
  let d1 := if knn_confidence < 25/100 then Undecided else d
  let d2 := if d1 = Fraud ∧ fraud_prob < 5/10 ∧ behavioral_risk < 4/10 ∧
      knn_confidence > 3/10 then Undecided else d1
  if d2 = NotFraud ∧ fraud_prob > 6/10 ∧ behavioral_risk > 6/10 then Undecided else d2

/-- The guardrail cascade as the specification words it (§4.7): four rules
applied "in order", each later rule tested only when no earlier rule fired. -/
def specGuardrailCascade (d : Decision) (fraud_prob behavioral_risk knn_confidence : ℚ) :
    Decision :=
  if knn_confidence < 25/100 then Undecided
  else if d = Fraud ∧ fraud_prob < 5/10 ∧ behavioral_risk < 4/10 ∧
      knn_confidence > 3/10 then Undecided
  else if d = NotFraud ∧ fraud_prob > 6/10 ∧ behavioral_risk > 6/10 then Undecided
  else d

/-- C1: the sequential guardrail post-processing of the source coincides with
the ordered cascade stated in the spec: confidence < 0.25 forces Undecided;
otherwise an unsupported Fraud call (p < 0.5, b < 0.4, c > 0.3) is downgraded;
otherwise a contradicted NotFraud call (p > 0.6, b > 0.6) is downgraded;
otherwise the tentative decision stands. -/
theorem guardrails_match_spec_cascade
    (d : Decision) (p b c : ℚ) :
    applyGuardrails d p b c = specGuardrailCascade d p b c := by
  cases d <;>
    simp only [applyGuardrails, specGuardrailCascade] <;>
    split_ifs <;> simp_all

/-- C2: the guardrail post-processing only ever keeps the tentative decision
or moves it to Undecided; it never turns Undecided into Fraud or NotFraud and
never swaps Fraud and NotFraud. -/
theorem guardrails_only_toward_undecided
    (d : Decision) (p b c : ℚ) :
    applyGuardrails d p b c = d ∨ applyGuardrails d p b c = Undecided := by
  cases d <;>
    simp only [applyGuardrails] <;>
    split_ifs <;> simp_all

/-- C6 counterexample: at fraud_probability 0.55, behavioral_risk 0.30,
neighbor confidence 0.35 and tentative Fraud, guardrail 2 does not fire
(0.55 is not < 0.5), so the decision is not downgraded to Undecided. -/
theorem scenarioD_not_undecided :
    ¬ applyGuardrails Fraud (55/100) (30/100) (35/100) = Undecided := by
  have h : applyGuardrails Fraud (55/100) (30/100) (35/100) = Fraud := by
    norm_num [applyGuardrails]
  rw [h]
  intro hc
  exact Decision.noConfusion hc

/-- C6 amended: at fraud_probability 0.55, behavioral_risk 0.30, neighbor
confidence 0.35 and tentative Fraud, the final decision stays Fraud. -/
theorem scenarioD_keeps_fraud :
    applyGuardrails Fraud (55/100) (30/100) (35/100) = Fraud := by
  norm_num [applyGuardrails]

/-- Fraud-side vote tally of the fallback of `_final_decision_node`
(rag_service.py lines 855-879), run when the oracle output cannot be parsed:
`fraud_signals += 2` when fraud_prob > 0.6, `+= 2` when behavioral_risk > 0.6,
`+= 1` on a mixer or wash-trading profile, `+= 1` when the alignment check
holds and fraud_prob > 0.5.  `mixer`, `wash` and `alignment` are the booleans
`validation_checks["mixer_profile_detected"]`, `["wash_trading_detected"]`
and `["knn_pattern_alignment"]`. -/
def fallbackFraudSignals (fraud_prob behavioral_risk : ℚ)
    (mixer wash alignment : Bool) : ℕ :=
  (if fraud_prob > 6/10 then 2 else 0) +
    (if behavioral_risk > 6/10 then 2 else 0) +
    (if mixer || wash then 1 else 0) +
    (if alignment ∧ fraud_prob > 5/10 then 1 else 0)

/-- Legitimate-side vote tally of the same fallback: the source's
`elif fraud_prob < 0.4` and `elif behavioral_risk < 0.35` branches carry the
negation of the matching `if` guard. -/
def fallbackLegitSignals (fraud_prob behavioral_risk : ℚ) (alignment : Bool) : ℕ :=
  (if ¬ fraud_prob > 6/10 ∧ fraud_prob < 4/10 then 2 else 0) +
    (if ¬ behavioral_risk > 6/10 ∧ behavioral_risk < 35/100 then 2 else 0) +
    (if alignment ∧ ¬ fraud_prob > 5/10 then 1 else 0)

/-- Embedding of the fallback decision of `_final_decision_node`
(rag_service.py lines 881-890): ≥ 3 fraud signals decide Fraud with
confidence min(0.7, votes/5); otherwise ≥ 3 legitimate signals decide
NotFraud likewise; otherwise Undecided with confidence 0.4. -/
def fallbackDecision (fraud_prob behavioral_risk : ℚ) (mixer wash alignment : Bool) :
    Decision × ℚ :=
  let f := fallbackFraudSignals fraud_prob behavioral_risk mixer wash alignment
  let l := fallbackLegitSignals fraud_prob behavioral_risk alignment
  if f ≥ 3 then (Fraud, min (7/10) ((f : ℚ) / 5))
  else if l ≥ 3 then (NotFraud, min (7/10) ((l : ℚ) / 5))
  else (Undecided, 4/10)

/-- The fallback decision rule exactly as the specification words it (§4.5):
the +2 legitimate votes are conditioned only on fraud_probability < 0.4 and
behavioral_risk < 0.35, without the elif guards. -/
def specFallbackDecision (fraud_prob behavioral_risk : ℚ)
    (mixer wash alignment : Bool) : Decision × ℚ :=
  let f : ℕ := (if fraud_prob > 6/10 then 2 else 0) +
    (if behavioral_risk > 6/10 then 2 else 0) +
    (if mixer || wash then 1 else 0) +
    (if alignment ∧ fraud_prob > 5/10 then 1 else 0)
  let l : ℕ := (if fraud_prob < 4/10 then 2 else 0) +
    (if behavioral_risk < 35/100 then 2 else 0) +
    (if alignment ∧ ¬ fraud_prob > 5/10 then 1 else 0)
  if f ≥ 3 then (Fraud, min (7/10) ((f : ℚ) / 5))
  else if l ≥ 3 then (NotFraud, min (7/10) ((l : ℚ) / 5))
  else (Undecided, 4/10)

/-- C4: on unparsable oracle output the fallback decision matches the spec's
voting rule: +2 fraud if p > 0.6, +2 legitimate if p < 0.4; +2 fraud if
b > 0.6, +2 legitimate if b < 0.35; +1 fraud for a mixer or wash-trading
archetype; +1 to the side the alignment check favors; a side with ≥ 3 votes
decides with confidence min(0.7, votes/5), otherwise Undecided with 0.4 —
the result is always one of the three valid decisions (the function is
total, matching "never raises"). -/
theorem fallback_matches_spec_voting (p b : ℚ) (mixer wash alignment : Bool) :
    fallbackDecision p b mixer wash alignment =
      specFallbackDecision p b mixer wash alignment := by
  have hp : (¬ p > 6/10 ∧ p < 4/10) ↔ p < 4/10 :=
    ⟨And.right, fun h => ⟨by linarith, h⟩⟩
  have hb : (¬ b > 6/10 ∧ b < 35/100) ↔ b < 35/100 :=
    ⟨And.right, fun h => ⟨by linarith, h⟩⟩
  simp only [fallbackDecision, specFallbackDecision, fallbackFraudSignals,
    fallbackLegitSignals, hp, hb]

/-- One nearest neighbor as consumed by `KNNService.analyze_neighbors`:
the `flag` (fraud label) and `distance` fields of the OpenSearch hit. -/
structure Neighbor where
  flag : ℤ
  distance : ℚ
deriving DecidableEq, Repr

/-- Inverse-distance weight `1 / (d + 1e-6)` (knn_service.py line 40). -/
def neighborWeight (n : Neighbor) : ℚ := 1 / (n.distance + 1/1000000)

/-- The fields of the analysis dictionary returned by
`KNNService.analyze_neighbors` that both return paths populate. -/
structure KNNAnalysis where
  fraud_probability : ℚ
  fraud_count : ℕ
  total_count : ℕ
  avg_distance : ℚ
  confidence : ℚ
deriving DecidableEq, Repr

/-- Embedding of `KNNService.analyze_neighbors` (knn_service.py lines 22-69).
An empty neighbor list returns the sentinel (probability 0.5, counts 0,
confidence 0); otherwise the weighted fraud probability uses inverse-distance
weights, and confidence averages `1/(1+avg_distance)` with the agreement
ratio `max(fraud, non_fraud)/total`. -/
def analyzeNeighbors (neighbors : List Neighbor) : KNNAnalysis :=
  if neighbors = [] then
    { fraud_probability := 1/2
      fraud_count := 0
      total_count := 0
      avg_distance := 0
      confidence := 0 }
  else
    let fraud_count := (neighbors.filter (fun n => n.flag = 1)).length
    let total_count := neighbors.length
    let total_weight := (neighbors.map neighborWeight).sum
    let weighted_fraud_prob :=
      if total_weight > 0 then
        (neighbors.map (fun n => neighborWeight n * (n.flag : ℚ))).sum / total_weight
      else 0
    let avg_distance := (neighbors.map (·.distance)).sum / (total_count : ℚ)
    let distance_confidence := 1 / (1 + avg_distance)
    let agreement := (max fraud_count (total_count - fraud_count) : ℚ) / (total_count : ℚ)
    { fraud_probability := weighted_fraud_prob
      fraud_count := fraud_count
      total_count := total_count
      avg_distance := avg_distance
      confidence := (distance_confidence + agreement) / 2 }

/-- C3: for neighbors with labels in {0,1} and non-negative distances the
weighted fraud probability lies in [0,1], and the empty list returns the
sentinel: probability 0.5, confidence 0, fraud and total counts 0. -/
theorem analyzeNeighbors_prob_bounds (ns : List Neighbor)
    (h : ∀ n ∈ ns, (n.flag = 0 ∨ n.flag = 1) ∧ 0 ≤ n.distance) :
    (0 ≤ (analyzeNeighbors ns).fraud_probability ∧
      (analyzeNeighbors ns).fraud_probability ≤ 1) ∧
    ((analyzeNeighbors []).fraud_probability = 1/2 ∧
      (analyzeNeighbors []).confidence = 0 ∧
      (analyzeNeighbors []).fraud_count = 0 ∧
      (analyzeNeighbors []).total_count = 0) := by
  refine ⟨?_, by simp [analyzeNeighbors]⟩
  by_cases hns : ns = []
  · subst hns
    simp [analyzeNeighbors]
    norm_num
  · have hwpos : ∀ n ∈ ns, 0 < neighborWeight n := by
      intro n hn
      have hd : 0 ≤ n.distance := (h n hn).2
      have : 0 < n.distance + 1/1000000 := by linarith
      exact div_pos one_pos this
    have htw : 0 < (ns.map neighborWeight).sum := by
      apply List.sum_pos
      · intro x hx
        obtain ⟨n, hn, rfl⟩ := List.mem_map.mp hx
        exact hwpos n hn
      · simpa using hns
    have hnum_nonneg : 0 ≤ (ns.map (fun n => neighborWeight n * (n.flag : ℚ))).sum := by
      apply List.sum_nonneg
      intro x hx
      obtain ⟨n, hn, rfl⟩ := List.mem_map.mp hx
      rcases (h n hn).1 with h0 | h1
      · simp [h0]
      · simp only [h1]
        norm_num
        exact le_of_lt (hwpos n hn)
    have hnum_le : (ns.map (fun n => neighborWeight n * (n.flag : ℚ))).sum ≤
        (ns.map neighborWeight).sum := by
      apply List.sum_le_sum
      intro n hn
      rcases (h n hn).1 with h0 | h1
      · simp [h0]
        exact le_of_lt (hwpos n hn)
      · simp [h1]
    simp only [analyzeNeighbors, if_neg hns, if_pos htw]
    constructor
    · exact div_nonneg hnum_nonneg (le_of_lt htw)
    · exact (div_le_one htw).mpr hnum_le

/-- Witness for `analyzeNeighbors_prob_bounds` at a concrete two-neighbor list. -/
theorem analyzeNeighbors_prob_bounds_witness :
    (0 ≤ (analyzeNeighbors [⟨1, 2⟩, ⟨0, 3⟩]).fraud_probability ∧
      (analyzeNeighbors [⟨1, 2⟩, ⟨0, 3⟩]).fraud_probability ≤ 1) ∧
    ((analyzeNeighbors []).fraud_probability = 1/2 ∧
      (analyzeNeighbors []).confidence = 0 ∧
      (analyzeNeighbors []).fraud_count = 0 ∧
      (analyzeNeighbors []).total_count = 0) :=
  analyzeNeighbors_prob_bounds [⟨1, 2⟩, ⟨0, 3⟩]
    (by intro n hn; fin_cases hn <;> norm_num)

/-- The input of Scenario A: 8 neighbors with label 1 at distance 0.01 and
2 neighbors with label 0 at distance 5. -/
def scenarioA : List Neighbor :=
  [⟨1, 1/100⟩, ⟨1, 1/100⟩, ⟨1, 1/100⟩, ⟨1, 1/100⟩,
   ⟨1, 1/100⟩, ⟨1, 1/100⟩, ⟨1, 1/100⟩, ⟨1, 1/100⟩,
   ⟨0, 5⟩, ⟨0, 5⟩]

/-- Full evaluation of `analyze_neighbors` on Scenario A. -/
lemma scenarioA_eval :
    analyzeNeighbors scenarioA =
      { fraud_probability := 20000004/20010005
        fraud_count := 8
        total_count := 10
        avg_distance := 126/125
        confidence := 1629/2510 } := by
  have hne : ¬ scenarioA = [] := by simp [scenarioA]
  have hw : (List.map neighborWeight scenarioA).sum > 0 := by
    norm_num [scenarioA, neighborWeight]
  simp only [analyzeNeighbors, if_neg hne, if_pos hw]
  norm_num [scenarioA, neighborWeight, List.filter]

/-- C5 counterexample: on Scenario A the confidence is 1629/2510 ≈ 0.649,
not greater than 0.8 as claimed: avg_distance is 1.008, so the distance
confidence 1/2.008 drags the average with agreement 0.8 down to ≈ 0.649. -/
theorem scenarioA_confidence_not_gt :
    ¬ (analyzeNeighbors scenarioA).confidence > 8/10 := by
  rw [scenarioA_eval]
  norm_num

/-- C5 amended: on Scenario A the weighted fraud probability exceeds 0.9 and
the confidence exceeds 0.6 (but not 0.8). -/
theorem scenarioA_prob_and_confidence :
    (analyzeNeighbors scenarioA).fraud_probability > 9/10 ∧
      (analyzeNeighbors scenarioA).confidence > 6/10 := by
  rw [scenarioA_eval]
  constructor <;> norm_num

/-- Embedding of `KNNService.get_decision` (knn_service.py lines 71-94). -/
def getDecision (fraud_probability confidence threshold : ℚ) : String :=
  if confidence < 4/10 then "Undecided"
  else if fraud_probability ≥ threshold then "True"
  else if fraud_probability < 1 - threshold then "False"
  else "Undecided"

/-- C10: at the default threshold 0.5 the dead zone is empty: the decision is
Undecided exactly when confidence < 0.4, and with confidence ≥ 0.4 it is
"True" iff p ≥ 0.5 and "False" iff p < 0.5. -/
theorem getDecision_default_no_dead_zone (p c : ℚ) :
    (getDecision p c (1/2) = "Undecided" ↔ c < 4/10) ∧
    (c ≥ 4/10 →
      ((getDecision p c (1/2) = "True" ↔ p ≥ 1/2) ∧
        (getDecision p c (1/2) = "False" ↔ p < 1/2))) := by
  have h12 : (1 : ℚ) - 1/2 = 1/2 := by norm_num
  unfold getDecision
  rw [h12]
  by_cases hc : c < 4/10
  · rw [if_pos hc]
    exact ⟨iff_of_true rfl hc, fun hcge => absurd hc (not_lt.mpr hcge)⟩
  · rw [if_neg hc]
    by_cases hp : p ≥ (1:ℚ)/2
    · rw [if_pos hp]
      refine ⟨?_, fun _ => ⟨?_, ?_⟩⟩
      · exact iff_of_false (by decide) hc
      · exact iff_of_true rfl hp
      · exact iff_of_false (by decide) (not_lt.mpr hp)
    · have hp' : p < 1/2 := lt_of_not_ge hp
      rw [if_neg hp, if_pos hp']
      refine ⟨?_, fun _ => ⟨?_, ?_⟩⟩
      · exact iff_of_false (by decide) hc
      · exact iff_of_false (by decide) hp
      · exact iff_of_true rfl hp'

/-- Witness for `getDecision_default_no_dead_zone` at p = 1/2, c = 1/2. -/
theorem getDecision_default_no_dead_zone_witness :
    (getDecision (1/2) (1/2) (1/2) = "Undecided" ↔ (1:ℚ)/2 < 4/10) ∧
    ((1:ℚ)/2 ≥ 4/10 →
      ((getDecision (1/2) (1/2) (1/2) = "True" ↔ (1:ℚ)/2 ≥ 1/2) ∧
        (getDecision (1/2) (1/2) (1/2) = "False" ↔ (1:ℚ)/2 < 1/2))) :=
  getDecision_default_no_dead_zone (1/2) (1/2)

/-- The deduplicated address list (Python `set(...)`) extracted from a
transfer list: `none` stands for a transfer whose counterparty field is
missing or not a valid string and is skipped (rag_service.py lines 196-208). -/
def addressSet (transfers : List (Option String)) : List String :=
  (transfers.filterMap id).dedup

/-- Size of `sent_set.intersection(received_set)` (rag_service.py line 236). -/
def circularCount (sent received : List (Option String)) : ℕ :=
  ((addressSet sent).filter (fun a => decide (a ∈ addressSet received))).length

/-- Embedding of the circular-flow trigger of `_analyze_network_patterns`
(rag_service.py lines 233-241): the tag is appended when
`len(circular) > 5 and total_txs > 10` and then
`len(circular) / min(len(sent_set), len(received_set), 1) > 0.3`. -/
def circularFlowTag (sent received : List (Option String)) : Bool :=
  let sent_set := addressSet sent
  let received_set := addressSet received
  let circular := circularCount sent received
  let total_txs := sent.length + received.length
  if circular > 5 ∧ total_txs > 10 then
    decide ((circular : ℚ) / ((min (min sent_set.length received_set.length) 1 : ℕ) : ℚ)
      > 3/10)
  else
    false

/-- The circular-flow trigger as the specification words it: at least 5
overlapping addresses, ratio against the smaller set above 0.3, more than
10 transactions. -/
def specCircularFlowTag (sent received : List (Option String)) : Bool :=
  let sent_set := addressSet sent
  let received_set := addressSet received
  let circular := circularCount sent received
  let total_txs := sent.length + received.length
  decide (circular ≥ 5 ∧
    (circular : ℚ) / ((min sent_set.length received_set.length : ℕ) : ℚ) > 3/10 ∧
    total_txs > 10)

/-- The concrete sent transfers of the C7 counterexample: five transfers to
five distinct addresses. -/
def cexSent : List (Option String) :=
  [some "a", some "b", some "c", some "d", some "e"]

/-- The concrete received transfers of the C7 counterexample: seven transfers
from the same five addresses. -/
def cexReceived : List (Option String) :=
  [some "a", some "b", some "c", some "d", some "e", some "a", some "b"]

/-- C7 counterexample: with exactly 5 overlapping addresses, ratio 1 and 12
transactions the spec's condition holds but the source does not trigger the
tag, because it requires strictly more than 5 overlapping addresses. -/
theorem circularFlow_cex :
    circularFlowTag cexSent cexReceived = false ∧
      specCircularFlowTag cexSent cexReceived = true := by
  constructor
  · simp [circularFlowTag, circularCount, addressSet, cexSent, cexReceived]
  · simp [specCircularFlowTag, circularCount, addressSet, cexSent, cexReceived]
    norm_num

/-- C7 amended: the tag triggers exactly when the intersection has strictly
more than 5 addresses and the total transaction count exceeds 10; the ratio
test is then always satisfied because the source divides by
`min(len(sent_set), len(received_set), 1)`, which equals 1 whenever the
intersection is nonempty. -/
theorem circularFlow_amended (sent received : List (Option String)) :
    circularFlowTag sent received = true ↔
      (circularCount sent received > 5 ∧ sent.length + received.length > 10) := by
  simp only [circularFlowTag]
  constructor
  · intro h
    by_cases hc : circularCount sent received > 5 ∧ sent.length + received.length > 10
    · exact hc
    · rw [if_neg hc] at h
      exact absurd h (by simp)
  · intro hc
    rw [if_pos hc]
    have hpos : 0 < circularCount sent received := by omega
    have hmem : ∃ a, a ∈ (addressSet sent).filter
        (fun a => decide (a ∈ addressSet received)) := by
      have : ((addressSet sent).filter (fun a => decide (a ∈ addressSet received))) ≠ [] := by
        intro hnil
        simp only [circularCount, hnil, List.length_nil] at hpos
        exact absurd hpos (lt_irrefl 0)
      exact List.exists_mem_of_ne_nil _ this
    obtain ⟨a, ha⟩ := hmem
    have hsent : a ∈ addressSet sent := List.mem_of_mem_filter ha
    have hrecv : a ∈ addressSet received := by
      have := List.of_mem_filter ha
      simpa using this
    have hs1 : 1 ≤ (addressSet sent).length := List.length_pos.mpr (List.ne_nil_of_mem hsent)
    have hr1 : 1 ≤ (addressSet received).length :=
      List.length_pos.mpr (List.ne_nil_of_mem hrecv)
    have hmin : min (min (addressSet sent).length (addressSet received).length) 1 = 1 := by
      omega
    rw [hmin]
    have h6 : (6 : ℚ) ≤ (circularCount sent received : ℚ) := by
      exact_mod_cast hc.1
    simp only [Nat.cast_one, div_one, decide_eq_true_eq]
    linarith

/-- `timestamps.sort()` followed by the consecutive differences
`timestamps[i+1] - timestamps[i]` (rag_service.py lines 80-81). -/
def timeDiffs (timestamps : List ℚ) : List ℚ :=
  let s := timestamps.insertionSort (· ≤ ·)
  (s.zip s.tail).map fun p => p.2 - p.1

/-- `np.mean` of a list of rationals. -/
def listMean (l : List ℚ) : ℚ := l.sum / (l.length : ℚ)

/-- Population variance, the square of `np.std`. -/
def listPopVar (l : List ℚ) : ℚ :=
  ((l.map fun x => (x - listMean l)^2).sum) / (l.length : ℚ)

/-- Embedding of the regular-interval trigger of `_analyze_temporal_patterns`
(rag_service.py lines 92-98): the tag is appended when there are at least 10
inter-arrival differences, `std_dev < mean_diff * 0.1` and `mean_diff < 3600`.
The standard-deviation comparison is encoded squared (`0 < mean` together
with `100·var < mean²`), which is equivalent because `np.std` and
`mean_diff * 0.1` are then both non-negative. -/
def regularIntervalTag (timestamps : List ℚ) : Bool :=
  let diffs := timeDiffs timestamps
  decide (diffs.length ≥ 10 ∧ 0 < listMean diffs ∧
    100 * listPopVar diffs < (listMean diffs)^2 ∧ listMean diffs < 3600)

/-- The regular-interval trigger as the claim words it: any list of two or
more timestamps whose inter-arrival standard deviation is below 10% of the
mean with mean under one hour. -/
def specRegularIntervalTag (timestamps : List ℚ) : Bool :=
  let diffs := timeDiffs timestamps
  decide (timestamps.length ≥ 2 ∧ 0 < listMean diffs ∧
    100 * listPopVar diffs < (listMean diffs)^2 ∧ listMean diffs < 3600)

/-- C8 counterexample: two timestamps one minute apart have a perfectly
regular inter-arrival (std 0, mean 60 s < 1 h), so the claim's condition
holds, but the source only evaluates the trigger when there are at least 10
inter-arrival differences and emits no tag here. -/
theorem regularInterval_cex :
    regularIntervalTag [0, 60] = false ∧ specRegularIntervalTag [0, 60] = true := by
  constructor
  · simp [regularIntervalTag, timeDiffs, List.insertionSort, List.orderedInsert]
  · simp [specRegularIntervalTag, timeDiffs, List.insertionSort, List.orderedInsert,
      listMean, listPopVar]
    norm_num

/-- The number of consecutive differences is one less than the number of
timestamps. -/
lemma timeDiffs_length (timestamps : List ℚ) :
    (timeDiffs timestamps).length = timestamps.length - 1 := by
  simp only [timeDiffs, List.length_map, List.length_zip, List.length_tail,
    List.length_insertionSort]
  omega

/-- C8 amended: for every list of at least 11 timestamps (hence at least 10
inter-arrival differences) the regular-interval tag is emitted exactly when
the standard deviation of the consecutive differences is below 10% of their
mean and the mean is below one hour. -/
theorem regularInterval_amended (timestamps : List ℚ)
    (h : timestamps.length ≥ 11) :
    regularIntervalTag timestamps = true ↔
      (0 < listMean (timeDiffs timestamps) ∧
        100 * listPopVar (timeDiffs timestamps) <
          (listMean (timeDiffs timestamps))^2 ∧
        listMean (timeDiffs timestamps) < 3600) := by
  have hlen : (timeDiffs timestamps).length ≥ 10 := by
    rw [timeDiffs_length]
    omega
  simp only [regularIntervalTag, decide_eq_true_eq]
  exact ⟨fun ⟨_, h1, h2, h3⟩ => ⟨h1, h2, h3⟩, fun ⟨h1, h2, h3⟩ => ⟨hlen, h1, h2, h3⟩⟩

/-- Witness for `regularInterval_amended`: 11 timestamps exactly 60 seconds
apart (std 0, mean 60 < 3600) do emit the tag. -/
theorem regularInterval_amended_witness :
    ([0, 60, 120, 180, 240, 300, 360, 420, 480, 540, 600] : List ℚ).length ≥ 11 ∧
      (regularIntervalTag [0, 60, 120, 180, 240, 300, 360, 420, 480, 540, 600] = true ↔
        (0 < listMean (timeDiffs [0, 60, 120, 180, 240, 300, 360, 420, 480, 540, 600]) ∧
          100 * listPopVar (timeDiffs [0, 60, 120, 180, 240, 300, 360, 420, 480, 540, 600]) <
            (listMean (timeDiffs [0, 60, 120, 180, 240, 300, 360, 420, 480, 540, 600]))^2 ∧
          listMean (timeDiffs [0, 60, 120, 180, 240, 300, 360, 420, 480, 540, 600]) < 3600)) :=
  ⟨by simp, regularInterval_amended _ (by simp)⟩

/-- The canonical feature-name list `FeatureExtractor.FEATURE_NAMES`
(feature_extractor.py lines 12-57); it has 44 entries, two of which are
duplicated exactly as in the source. -/
def FEATURE_NAMES : List String :=
  ["Avg min between sent tnx",
   "Avg min between received tnx",
   "Time Diff between first and last (Mins)",
   "Sent tnx",
   "Received Tnx",
   "Number of Created Contracts",
   "Unique Received From Addresses",
   "Unique Sent To Addresses",
   "min value received",
   "max value received",
   "avg val received",
   "min val sent",
   "max val sent",
   "avg val sent",
   "min value sent to contract",
   "max val sent to contract",
   "avg value sent to contract",
   "total transactions (including tnx to create contract)",
   "total Ether sent",
   "total ether received",
   "total ether sent contracts",
   "total ether balance",
   " Total ERC20 tnxs",
   " ERC20 total Ether received",
   " ERC20 total ether sent",
   " ERC20 total Ether sent contract",
   " ERC20 uniq sent addr",
   " ERC20 uniq rec addr",
   " ERC20 uniq rec contract addr",
   " ERC20 avg time between sent tnx",
   " ERC20 avg time between rec tnx",
   " ERC20 avg time between contract tnx",
   " ERC20 min val rec",
   " ERC20 max val rec",
   " ERC20 avg val rec",
   " ERC20 min val sent",
   " ERC20 max val sent",
   " ERC20 avg val sent",
   " ERC20 uniq sent token name",
   " ERC20 uniq rec token name",
   " ERC20 most sent token type",
   " ERC20 most rec token type",
   "Unique Sent To Addresses",
   "Unique Received From Addresses"]

/-- Embedding of `FeatureExtractor.features_to_vector`
(feature_extractor.py lines 227-234): the feature dictionary is a partial
map from names to values; `features.get(name, 0)` is `Option.getD 0`. -/
def features_to_vector (features : String → Option ℚ) : List ℚ :=
  FEATURE_NAMES.map fun name => (features name).getD 0

/-- C9: for every (possibly partial) feature map the vector has exactly the
44 entries of `FEATURE_NAMES`, and every position whose canonical name is
absent from the map holds 0. -/
theorem features_to_vector_spec (features : String → Option ℚ) :
    (features_to_vector features).length = 44 ∧
    ∀ i : ℕ, ∀ hi : i < 44, features (FEATURE_NAMES.getD i "") = none →
      (features_to_vector features).getD i 0 = 0 := by
  have hlen : FEATURE_NAMES.length = 44 := rfl
  constructor
  · simp [features_to_vector, hlen]
  · intro i hi hnone
    have hi' : i < FEATURE_NAMES.length := by omega
    have hi'' : i < (features_to_vector features).length := by
      simp [features_to_vector, hlen]
      omega
    rw [List.getD_eq_getElem _ _ hi'']
    rw [List.getD_eq_getElem _ _ hi'] at hnone
    simp only [features_to_vector, List.getElem_map]
    rw [hnone]
    rfl

/-- Witness for `features_to_vector_spec` at the empty feature map and
position 0. -/
theorem features_to_vector_spec_witness :
    (features_to_vector (fun _ => none)).length = 44 ∧
      (features_to_vector (fun _ => none)).getD 0 0 = 0 :=
  ⟨(features_to_vector_spec (fun _ => none)).1,
    (features_to_vector_spec (fun _ => none)).2 0 (by norm_num) rfl⟩

end TransferPoC
